import Mathlib

/-!
Shallow embedding of the Garmin export import/merge pipeline
(`src/scripts/import_extracted_data.ts`) together with proofs settling the
specification's claims about it.

Modeling conventions:
* JavaScript `undefined`/`null` for an optional field is `Option.none`;
  JavaScript falsy coalescing (`x || y`, where `0`, the empty string,
  `null` and `undefined` are falsy) is modeled by explicit helpers.
* The PostgreSQL relations are association lists from natural key to row;
  `INSERT ... ON CONFLICT ... DO UPDATE` is `upsertAL`.
* `new Date(s)` keeps its source string (an opaque parsed timestamp value).
* Source numbers are modeled as `Int`; `Math.round` is then the identity,
  so `Math.round(activity.duration || 0)` is `durationSeconds`.
* `CURRENT_TIMESTAMP` is an explicit `now : Nat` parameter of the
  operation that reads it.
* Store-level rejection of an individual activity row (a constraint or
  coercion failure surfaced by the store) is modeled by the oracle list
  `rejects` of rejected activity ids, and a failing `user_profile`
  statement by the flag `profileQueryFails`. Both failures are raised and
  caught exactly where the source raises and catches them.
-/

namespace Garmin

/-- Association-list lookup by key (a relation keyed by its natural key). -/
def lookupAL {κ α : Type} [DecidableEq κ] (k : κ) : List (κ × α) → Option α
  | [] => none
  | p :: rest => if p.1 = k then some p.2 else lookupAL k rest

/-- `INSERT ... ON CONFLICT (key) DO UPDATE`: if the key is present the
existing row is replaced by `upd` of it, otherwise `ins` is appended. -/
def upsertAL {κ α : Type} [DecidableEq κ] (k : κ) (ins : α) (upd : α → α) :
    List (κ × α) → List (κ × α)
  | [] => [(k, ins)]
  | p :: rest => if p.1 = k then (p.1, upd p.2) :: rest else p :: upsertAL k ins upd rest

/-- JavaScript `x || y` on an optional number: `undefined`, `null` and `0`
are falsy. -/
def jsOrNum (x : Option Int) (y : Option Int) : Option Int :=
  match x with
  | some v => if v = 0 then y else some v
  | none => y

/-- JavaScript `x || null` on an optional number. -/
def orNullNum (x : Option Int) : Option Int := jsOrNum x none

/-- JavaScript `x || null` on an optional string; also models
`x ? new Date(x) : null`, keeping the parsed timestamp as its source
string. -/
def orNullStr (x : Option String) : Option String :=
  match x with
  | some s => if s = "" then none else some s
  | none => none

/-- JavaScript `x || d` on an optional string with a string default. -/
def jsOrDefault (x : Option String) (d : String) : String :=
  match x with
  | some s => if s = "" then d else s
  | none => d

/-- `Math.round(x || 0)`; on the integral durations modeled here the
rounding is the identity. -/
def durationSeconds (x : Option Int) : Int := (jsOrNum x (some 0)).getD 0

/-- Whether `pat` is a leading segment of the second list. -/
def leadsWith : List Char → List Char → Bool
  | [], _ => true
  | _ :: _, [] => false
  | p :: ps, c :: cs => (p == c) && leadsWith ps cs

/-- Whether `pat` occurs anywhere in the second list. -/
def hasSubList (pat : List Char) : List Char → Bool
  | [] => leadsWith pat []
  | c :: cs => leadsWith pat (c :: cs) || hasSubList pat cs

/-- JavaScript `s.includes(pat)`. -/
def strContains (s pat : String) : Bool := hasSubList pat.toList s.toList

/-- JavaScript `s.endsWith(pat)`. -/
def strEndsWith (s pat : String) : Bool :=
  leadsWith pat.toList.reverse s.toList.reverse

/-- Lexicographic comparison of character lists by code unit, the order
used by JavaScript's default `Array.sort` on strings. -/
def lexLe : List Char → List Char → Bool
  | [], _ => true
  | _ :: _, [] => false
  | a :: as, b :: bs =>
    if a.toNat < b.toNat then true
    else if b.toNat < a.toNat then false
    else lexLe as bs

/-- String comparison backing the default `Array.sort`. -/
def strLe (a b : String) : Bool := lexLe a.toList b.toList

/-- Insert a string into an ascending list (helper of `jsSort`). -/
def insertSorted (x : String) : List String → List String
  | [] => [x]
  | y :: rest => if strLe x y then x :: y :: rest else y :: insertSorted x rest

/-- JavaScript `array.sort()` on strings (ascending lexicographic). -/
def jsSort (l : List String) : List String := l.foldr insertSorted []

/-- The `stats` sub-section of one day record of a daily bundle. -/
structure StatsSection where
  totalSteps : Option Int
  totalDistanceMeters : Option Int
  activeKilocalories : Option Int
  bmrKilocalories : Option Int
  totalKilocalories : Option Int
deriving DecidableEq

/-- The `heart_rate` sub-section of one day record. -/
structure HeartRateSection where
  restingHeartRate : Option Int
  minHeartRate : Option Int
  maxHeartRate : Option Int
deriving DecidableEq

/-- The `sleep` sub-section of one day record. -/
structure SleepSection where
  totalSleepTimeSeconds : Option Int
  deepSleepSeconds : Option Int
  lightSleepSeconds : Option Int
  remSleepSeconds : Option Int
  awakeSleepSeconds : Option Int
  sleepStartTimestampLocal : Option String
  sleepEndTimestampLocal : Option String
  overallSleepScore : Option Int
deriving DecidableEq

/-- The `body_composition` sub-section of one day record. -/
structure BodyCompSection where
  weight : Option Int
  bodyFat : Option Int
  muscleMass : Option Int
  boneMass : Option Int
  bmi : Option Int
deriving DecidableEq

/-- The `hydration` sub-section of one day record. -/
structure HydrationSection where
  hydrationGoal : Option Int
  hydrationIntake : Option Int
deriving DecidableEq

/-- The `user_summary` sub-section carrying profile data. -/
structure UserSummary where
  displayName : Option String
  email : Option String
deriving DecidableEq

/-- One day record of a daily bundle; each sub-section is optional. -/
structure DayData where
  stats : Option StatsSection
  heart_rate : Option HeartRateSection
  sleep : Option SleepSection
  body_composition : Option BodyCompSection
  hydration : Option HydrationSection
  user_summary : Option UserSummary
deriving DecidableEq

/-- One parsed daily bundle document. `data` keeps JSON object insertion
order (`Object.entries`/`Object.values` order for these date keys), and a
`none` value models a date whose entry is JSON `null` — dereferencing its
sub-sections throws a TypeError. The metadata section is only logged by
the source and is omitted here. -/
structure GarminExportData where
  data : List (String × Option DayData)
deriving DecidableEq

/-- The nested `activityType` member of an activity summary. -/
structure ActivityType where
  typeKey : Option String
deriving DecidableEq

/-- The `summary` member of one activity wrapper. The identity field
`activityId` is modeled as present (a row without it is rejected by the
store, which the `rejects` oracle models abstractly). -/
structure ActivitySummary where
  activityId : Int
  activityName : Option String
  activityType : Option ActivityType
  startTimeLocal : Option String
  startTimeGMT : Option String
  duration : Option Int
  distance : Option Int
  calories : Option Int
  bmrCalories : Option Int
  averageHR : Option Int
  maxHR : Option Int
  averageSpeed : Option Int
  maxSpeed : Option Int
  elevationGain : Option Int
  elevationLoss : Option Int
  startLatitude : Option Int
  startLongitude : Option Int
  hasPolyline : Option Bool
  activeKilocalories : Option Int
deriving DecidableEq

/-- One entry of an activity document's `activities` array;
`summary := none` models a wrapper whose required `summary` member is
missing (its dereference throws a TypeError). -/
structure ActivityWrapper where
  summary : Option ActivitySummary
deriving DecidableEq

/-- One parsed activity bundle document. -/
structure ActivityData where
  activity_count : Int
  activities : List ActivityWrapper
deriving DecidableEq

/-- A `user_profile` row (non-key columns; the key `user_id` is the map
key). -/
structure ProfileRow where
  display_name : String
  email : Option String
  updated_at : Nat
deriving DecidableEq

/-- A `daily_health_metrics` row (non-key columns). -/
structure DailyRow where
  total_steps : Option Int
  total_distance_meters : Option Int
  active_calories : Option Int
  resting_calories : Option Int
  total_calories : Option Int
  resting_heart_rate : Option Int
  min_heart_rate : Option Int
  max_heart_rate : Option Int
  hydration_goal_ml : Option Int
  hydration_intake_ml : Option Int
deriving DecidableEq

/-- A `sleep_sessions` row (non-key columns). -/
structure SleepRow where
  sleep_duration_seconds : Option Int
  deep_sleep_seconds : Option Int
  light_sleep_seconds : Option Int
  rem_sleep_seconds : Option Int
  awake_seconds : Option Int
  sleep_start_time : Option String
  sleep_end_time : Option String
  sleep_score : Option Int
deriving DecidableEq

/-- A `body_composition` row (non-key columns). -/
structure BodyRow where
  weight_kg : Option Int
  body_fat_percentage : Option Int
  muscle_mass_kg : Option Int
  bone_mass_kg : Option Int
  bmi : Option Int
deriving DecidableEq

/-- An `activities` row. The key `activity_id` is the map key; `user_id`
is a non-key column set on insert and never updated on conflict. -/
structure ActivityRow where
  user_id : String
  activity_name : Option String
  activity_type : Option String
  start_time_local : Option String
  start_time_gmt : Option String
  duration_seconds : Int
  distance_meters : Option Int
  calories : Option Int
  bmr_calories : Option Int
  average_hr : Option Int
  max_hr : Option Int
  average_speed : Option Int
  max_speed : Option Int
  elevation_gain : Option Int
  elevation_loss : Option Int
  begin_latitude : Option Int
  begin_longitude : Option Int
  has_polyline : Bool
  active_calories : Option Int
deriving DecidableEq

/-- The destination relations. `daily_health_metrics` is keyed by
`(date, user_id)`, `sleep_sessions` by `(user_id, sleep_date)`,
`body_composition` by `(measurement_date, user_id)`, `activities` by
`activity_id` and `user_profile` by `user_id`, matching each statement's
`ON CONFLICT` column list. -/
structure Store where
  user_profile : List (String × ProfileRow)
  daily_health_metrics : List ((String × String) × DailyRow)
  sleep_sessions : List ((String × String) × SleepRow)
  body_composition : List ((String × String) × BodyRow)
  activities : List (Int × ActivityRow)
deriving DecidableEq

def emptyStore : Store := ⟨[], [], [], [], []⟩

/-- Run-wide mutable state: the store plus the `this.stats` mapping. -/
structure ImportState where
  store : Store
  stats : List (String × Nat)
deriving DecidableEq

def emptyImportState : ImportState := ⟨emptyStore, []⟩

/-- `this.stats[key] = v` — plain assignment, not accumulation. -/
def setStat (k : String) (v : Nat) (st : List (String × Nat)) : List (String × Nat) :=
  upsertAL k v (fun _ => v) st

/-- `Object.values(this.stats).reduce((sum, count) => sum + count, 0)`. -/
def totalRecords (st : List (String × Nat)) : Nat := (st.map (·.2)).sum

/-- Parameter list of the `daily_health_metrics` insert (source lines
198–211): every optional field goes through `|| null`, the heart-rate and
hydration sub-sections through optional chaining first. -/
def mkDailyRow (day : DayData) (s : StatsSection) : DailyRow :=
  { total_steps := orNullNum s.totalSteps
    total_distance_meters := orNullNum s.totalDistanceMeters
    active_calories := orNullNum s.activeKilocalories
    resting_calories := orNullNum s.bmrKilocalories
    total_calories := orNullNum s.totalKilocalories
    resting_heart_rate := orNullNum (day.heart_rate.bind (·.restingHeartRate))
    min_heart_rate := orNullNum (day.heart_rate.bind (·.minHeartRate))
    max_heart_rate := orNullNum (day.heart_rate.bind (·.maxHeartRate))
    hydration_goal_ml := orNullNum (day.hydration.bind (·.hydrationGoal))
    hydration_intake_ml := orNullNum (day.hydration.bind (·.hydrationIntake)) }

/-- Parameter list of the `sleep_sessions` insert (source lines 255–266). -/
def mkSleepRow (sl : SleepSection) : SleepRow :=
  { sleep_duration_seconds := orNullNum sl.totalSleepTimeSeconds
    deep_sleep_seconds := orNullNum sl.deepSleepSeconds
    light_sleep_seconds := orNullNum sl.lightSleepSeconds
    rem_sleep_seconds := orNullNum sl.remSleepSeconds
    awake_seconds := orNullNum sl.awakeSleepSeconds
    sleep_start_time := orNullStr sl.sleepStartTimestampLocal
    sleep_end_time := orNullStr sl.sleepEndTimestampLocal
    sleep_score := orNullNum sl.overallSleepScore }

/-- Parameter list of the `body_composition` insert (source lines
396–404). -/
def mkBodyRow (bc : BodyCompSection) : BodyRow :=
  { weight_kg := orNullNum bc.weight
    body_fat_percentage := orNullNum bc.bodyFat
    muscle_mass_kg := orNullNum bc.muscleMass
    bone_mass_kg := orNullNum bc.boneMass
    bmi := orNullNum bc.bmi }

/-- Parameter list of the `activities` insert (source lines 332–353). -/
def mkActivityRow (userId : String) (a : ActivitySummary) : ActivityRow :=
  { user_id := userId
    activity_name := orNullStr a.activityName
    activity_type := orNullStr (a.activityType.bind (·.typeKey))
    start_time_local := orNullStr a.startTimeLocal
    start_time_gmt := orNullStr a.startTimeGMT
    duration_seconds := durationSeconds a.duration
    distance_meters := orNullNum a.distance
    calories := orNullNum a.calories
    bmr_calories := orNullNum a.bmrCalories
    average_hr := orNullNum a.averageHR
    max_hr := orNullNum a.maxHR
    average_speed := orNullNum a.averageSpeed
    max_speed := orNullNum a.maxSpeed
    elevation_gain := orNullNum a.elevationGain
    elevation_loss := orNullNum a.elevationLoss
    begin_latitude := orNullNum a.startLatitude
    begin_longitude := orNullNum a.startLongitude
    has_polyline := a.hasPolyline.getD false
    active_calories := orNullNum a.activeKilocalories }

/-- The `user_profile` upsert (source lines 147–157). The conflict branch
updates only `display_name` and stamps `updated_at = CURRENT_TIMESTAMP`;
`email` keeps its stored value. The insert branch's `updated_at` is the
column default, modeled as the statement timestamp. -/
def profileRowOf (u : UserSummary) (now : Nat) : ProfileRow :=
  { display_name := jsOrDefault u.displayName "Garmin User",
    email := orNullStr u.email,
    updated_at := now }

/-- Conflict branch of the `user_profile` upsert: `display_name` takes the
excluded (incoming) value and `updated_at` the statement timestamp; the
stored `email` is untouched. -/
def profileUpd (u : UserSummary) (now : Nat) (old : ProfileRow) : ProfileRow :=
  { old with display_name := (profileRowOf u now).display_name, updated_at := now }

def upsertProfileRow (userId : String) (now : Nat) (u : UserSummary) (s : Store) : Store :=
  { s with user_profile := upsertAL userId (profileRowOf u now) (profileUpd u now) s.user_profile }

/-- The `daily_health_metrics` upsert: the conflict branch overwrites
every non-key column with the excluded values (source lines 187–197). -/
def upsertDailyRow (userId date : String) (row : DailyRow) (s : Store) : Store :=
  { s with daily_health_metrics := upsertAL (date, userId) row (fun _ => row) s.daily_health_metrics }

/-- The `sleep_sessions` upsert: full overwrite on conflict (source lines
246–254). -/
def upsertSleepRow (userId date : String) (row : SleepRow) (s : Store) : Store :=
  { s with sleep_sessions := upsertAL (userId, date) row (fun _ => row) s.sleep_sessions }

/-- The `body_composition` upsert: full overwrite on conflict (source
lines 390–395). -/
def upsertBodyRow (userId date : String) (row : BodyRow) (s : Store) : Store :=
  { s with body_composition := upsertAL (date, userId) row (fun _ => row) s.body_composition }

/-- Conflict branch of the `activities` upsert (source lines 320–331):
only the listed mutable columns are overwritten; type, start times,
coordinates, the polyline flag, active calories and `user_id` keep their
first-seen values. -/
def updateActivityRow (new : ActivityRow) (old : ActivityRow) : ActivityRow :=
  { old with
    activity_name := new.activity_name
    duration_seconds := new.duration_seconds
    distance_meters := new.distance_meters
    calories := new.calories
    bmr_calories := new.bmr_calories
    average_hr := new.average_hr
    max_hr := new.max_hr
    average_speed := new.average_speed
    max_speed := new.max_speed
    elevation_gain := new.elevation_gain
    elevation_loss := new.elevation_loss }

/-- The `activities` upsert keyed by `activity_id`. -/
def upsertActivityRow (a : ActivitySummary) (row : ActivityRow) (s : Store) : Store :=
  { s with activities := upsertAL a.activityId row (updateActivityRow row) s.activities }

/-- `importUserProfile` (source lines 141–164): absent data returns
immediately; a query failure is caught and swallowed (no error counter,
no stats entry, store unchanged); on success `this.stats['user_profile'] = 1`. -/
def importUserProfile (userId : String) (now : Nat) (profileQueryFails : Bool)
    (userData : Option UserSummary) (st : ImportState) : ImportState :=
  match userData with
  | none => st
  | some u =>
    if profileQueryFails then st
    else
      { store := upsertProfileRow userId now u st.store,
        stats := setStat "user_profile" 1 st.stats }

/-- Per-record loop of `importDailyHealthMetrics` (source lines 172–222):
a `null` day record throws on `.stats` inside the `try` and is caught
(error counted, loop continues); a day without a `stats` sub-section is
skipped silently; otherwise the row is upserted and counted. -/
def dailyLoop (userId : String) :
    List (String × Option DayData) → Store → Nat → Nat → Store × Nat × Nat
  | [], s, imported, errors => (s, imported, errors)
  | (date, d?) :: rest, s, imported, errors =>
    match d? with
    | none => dailyLoop userId rest s imported (errors + 1)
    | some day =>
      match day.stats with
      | none => dailyLoop userId rest s imported errors
      | some sec =>
        dailyLoop userId rest (upsertDailyRow userId date (mkDailyRow day sec) s)
          (imported + 1) errors

/-- Per-record loop of `importSleepData` (source lines 234–274). -/
def sleepLoop (userId : String) :
    List (String × Option DayData) → Store → Nat → Nat → Store × Nat × Nat
  | [], s, imported, errors => (s, imported, errors)
  | (date, d?) :: rest, s, imported, errors =>
    match d? with
    | none => sleepLoop userId rest s imported (errors + 1)
    | some day =>
      match day.sleep with
      | none => sleepLoop userId rest s imported errors
      | some sl =>
        sleepLoop userId rest (upsertSleepRow userId date (mkSleepRow sl) s)
          (imported + 1) errors

/-- Per-record loop of `importBodyComposition` (source lines 379–412). -/
def bodyLoop (userId : String) :
    List (String × Option DayData) → Store → Nat → Nat → Store × Nat × Nat
  | [], s, imported, errors => (s, imported, errors)
  | (date, d?) :: rest, s, imported, errors =>
    match d? with
    | none => bodyLoop userId rest s imported (errors + 1)
    | some day =>
      match day.body_composition with
      | none => bodyLoop userId rest s imported errors
      | some bc =>
        bodyLoop userId rest (upsertBodyRow userId date (mkBodyRow bc) s)
          (imported + 1) errors

/-- Outcome of one category importer: the updated run state plus the
final `(imported, errors)` pair the importer logs. -/
structure CatResult where
  state : ImportState
  imported : Nat
  errors : Nat
deriving DecidableEq

/-- `importDailyHealthMetrics` (source lines 166–226); afterwards
`this.stats['daily_health_metrics'] = imported` (assignment). -/
def importDailyHealthMetrics (userId : String) (d : GarminExportData) (st : ImportState) :
    CatResult :=
  let r := dailyLoop userId d.data st.store 0 0
  { state := { store := r.1, stats := setStat "daily_health_metrics" r.2.1 st.stats },
    imported := r.2.1,
    errors := r.2.2 }

/-- `importSleepData` (source lines 228–278); afterwards
`this.stats['sleep_sessions'] = imported`. -/
def importSleepData (userId : String) (d : GarminExportData) (st : ImportState) : CatResult :=
  let r := sleepLoop userId d.data st.store 0 0
  { state := { store := r.1, stats := setStat "sleep_sessions" r.2.1 st.stats },
    imported := r.2.1,
    errors := r.2.2 }

/-- `importBodyComposition` (source lines 373–416); afterwards
`this.stats['body_composition'] = imported`. -/
def importBodyComposition (userId : String) (d : GarminExportData) (st : ImportState) :
    CatResult :=
  let r := bodyLoop userId d.data st.store 0 0
  { state := { store := r.1, stats := setStat "body_composition" r.2.1 st.stats },
    imported := r.2.1,
    errors := r.2.2 }

/-- The filesystem as the pipeline sees it: parsed daily bundle and
activity documents keyed by file name under the exports directory
(`path.join(exportsDir, name)` is name lookup), and the raw
`readdirSync` listing in directory order. -/
structure FileSystem where
  files : List (String × GarminExportData)
  actFiles : List (String × ActivityData)
  dirListing : List String
deriving DecidableEq

/-- `Object.values(data.data)[0]?.user_summary` (source lines 433–436):
only the first day record is ever inspected for profile data. -/
def firstDayProfile (d : GarminExportData) : Option UserSummary :=
  match d.data.head? with
  | some (_, some day) => day.user_summary
  | _ => none

/-- `processExportFile` (source lines 418–442): a file that does not
exist is only warned about and skipped (plain `return`); otherwise the
profile of the first day record (when carried) and then the three daily
categories are imported. -/
def processExportFile (userId : String) (now : Nat) (profileQueryFails : Bool)
    (fs : FileSystem) (filename : String) (st : ImportState) : ImportState :=
  match lookupAL filename fs.files with
  | none => st
  | some d =>
    let st1 := importUserProfile userId now profileQueryFails (firstDayProfile d) st
    let st2 := (importDailyHealthMetrics userId d st1).state
    let st3 := (importSleepData userId d st2).state
    (importBodyComposition userId d st3).state

/-- A run-level (fatal) error escaping the per-record handling. -/
inductive RunError where
  | fileNotFound (name : String)
  | catchHandlerTypeError
deriving DecidableEq

/-- The directory scan inside `importActivities` (source lines 286–287):
filter only — this scan does not sort. -/
def scanActivityFiles (fs : FileSystem) : List String :=
  fs.dirListing.filter (fun n => strContains n "activities" && strEndsWith n ".json")

/-- File list used by `importActivities` (source lines 284–287):
`files?.length ? files : readdirSync(...).filter(...)` — an explicit
non-empty list wins, otherwise the unsorted scan. -/
def activityFileSelection (fs : FileSystem) (files : Option (List String)) : List String :=
  match files with
  | some (f :: rest) => f :: rest
  | _ => scanActivityFiles fs

/-- Per-record loop over one activity file (source lines 308–362).
`const activity = activityWrapper.summary` stands before the `try`; when
`summary` is missing the body throws on `activity.activityId`, and the
`catch` handler then throws the same TypeError again while building its
log message — so the whole category aborts (`Except.error`, carrying the
store and counts reached so far). A store-rejected row (`rejects`) is
caught normally and counted. -/
def activitiesLoop (userId : String) (rejects : List Int) :
    List ActivityWrapper → Store → Nat → Nat → Except (Store × Nat × Nat) (Store × Nat × Nat)
  | [], s, imported, errors => .ok (s, imported, errors)
  | w :: rest, s, imported, errors =>
    match w.summary with
    | none => .error (s, imported, errors)
    | some a =>
      if a.activityId ∈ rejects then
        activitiesLoop userId rejects rest s imported (errors + 1)
      else
        activitiesLoop userId rejects rest (upsertActivityRow a (mkActivityRow userId a) s)
          (imported + 1) errors

/-- Loop of `importActivities` over the selected activity files (source
lines 297–367): reading a missing file throws (uncaught), the per-file
record loop can abort with the catch-handler TypeError, and per-file
counts accumulate into the call's totals. -/
def activityFilesLoop (userId : String) (rejects : List Int) (fs : FileSystem) :
    List String → Store → Nat → Nat → Except (RunError × Store) (Store × Nat × Nat)
  | [], s, ti, te => .ok (s, ti, te)
  | f :: rest, s, ti, te =>
    match lookupAL f fs.actFiles with
    | none => .error (.fileNotFound f, s)
    | some d =>
      match activitiesLoop userId rejects d.activities s 0 0 with
      | .error (s', _, _) => .error (.catchHandlerTypeError, s')
      | .ok (s', imp, err) => activityFilesLoop userId rejects fs rest s' (ti + imp) (te + err)

/-- `importActivities` (source lines 280–371): an empty selection returns
before `this.stats['activities']` is ever assigned; otherwise the totals
over all processed files are assigned to that entry. Errors escape to
`run`. -/
def importActivities (userId : String) (rejects : List Int) (fs : FileSystem)
    (files : Option (List String)) (st : ImportState) :
    Except (RunError × ImportState) ImportState :=
  let sel := activityFileSelection fs files
  if sel = [] then .ok st
  else
    match activityFilesLoop userId rejects fs sel st.store 0 0 with
    | .error (e, s') => .error (e, { st with store := s' })
    | .ok (s', ti, _) => .ok { store := s', stats := setStat "activities" ti st.stats }

/-- Parsed command-line flags. -/
structure Args where
  dailyFiles : List String
  activityFiles : List String
  onlyLatest : Bool
  onlyLatestActivities : Bool
deriving DecidableEq

/-- Effect of one argument that is neither a consuming `--file` form nor
consumed by one: the two boolean flags toggle on, anything else is
ignored. -/
def applyFlag (a : String) (r : Args) : Args :=
  { r with
    onlyLatest := decide (a = "--only-latest") || r.onlyLatest,
    onlyLatestActivities := decide (a = "--activities-only-latest") || r.onlyLatestActivities }

/-- `parseArgs` (source lines 69–101): `--file` and `--activities-file`
consume a following truthy (non-empty) argument; with a falsy or missing
follower they fall through to the flag checks (and match neither flag). -/
def parseArgs : List String → Args
  | [] => ⟨[], [], false, false⟩
  | [a] => applyFlag a ⟨[], [], false, false⟩
  | a :: b :: rest =>
    if a = "--file" ∧ b ≠ "" then
      let r := parseArgs rest
      { r with dailyFiles := b :: r.dailyFiles }
    else if a = "--activities-file" ∧ b ≠ "" then
      let r := parseArgs rest
      { r with activityFiles := b :: r.activityFiles }
    else
      applyFlag a (parseArgs (b :: rest))

/-- The daily-bundle directory scan in `run` (source lines 483–485):
filter then `.sort()` (lexicographic). -/
def scanDailyFiles (fs : FileSystem) : List String :=
  jsSort (fs.dirListing.filter (fun n => strContains n "garmin_daily_" && strEndsWith n ".json"))

/-- Daily file selection in `run` (source lines 481–489): explicit
`--file` arguments replace the sorted directory scan, and the only-latest
truncation is applied afterwards to whichever list resulted — including
an explicit list. -/
def selectDailyFiles (args : Args) (fs : FileSystem) : List String :=
  let files := if args.dailyFiles = [] then scanDailyFiles fs else args.dailyFiles
  if args.onlyLatest ∧ files.length > 1 then files.getLast?.toList else files

/-- The `files` argument `run` passes to `importActivities` (source lines
505–516): explicit list, else `[last of sorted scan]` under the
only-latest flag, else none (scan inside `importActivities`). -/
def activityFilesArg (args : Args) (fs : FileSystem) : Option (List String) :=
  if args.activityFiles ≠ [] then some args.activityFiles
  else if args.onlyLatestActivities then
    some ((jsSort (scanActivityFiles fs)).getLast?.toList)
  else none

/-- Observable outcome of `run`: the result (with the state reached, also
on the error path), whether `verifyImport` was reached, and whether the
`finally` released the connection. -/
structure RunOutcome where
  result : Except (RunError × ImportState) ImportState
  verified : Bool
  disconnected : Bool

def exceptIsOk {ε α : Type} : Except ε α → Bool
  | .ok _ => true
  | .error _ => false

def okState {ε α : Type} : Except ε α → Option α
  | .ok a => some a
  | .error _ => none

/-- `run` (source lines 474–533): select the daily files, short-circuit
(plain `return`) when that list is empty — before the activity branch and
before verification —, otherwise process each daily file, run the
activity branch, then verification; the `finally` always disconnects. -/
def run (userId : String) (now : Nat) (profileQueryFails : Bool) (rejects : List Int)
    (fs : FileSystem) (argv : List String) : RunOutcome :=
  let args := parseArgs argv
  let exportFiles := selectDailyFiles args fs
  if exportFiles = [] then
    { result := .ok emptyImportState, verified := false, disconnected := true }
  else
    let st := exportFiles.foldl
      (fun st f => processExportFile userId now profileQueryFails fs f st) emptyImportState
    match importActivities userId rejects fs (activityFilesArg args fs) st with
    | .error e => { result := .error e, verified := false, disconnected := true }
    | .ok st' => { result := .ok st', verified := true, disconnected := true }

/-! Concrete fixtures used by the claim theorems. -/

def exProfile : UserSummary := ⟨some "Ann", some "ann@example.com"⟩

def exStats100 : StatsSection := ⟨some 100, none, none, none, none⟩

/-- A day record carrying stats but no heart-rate, sleep, body or profile
sub-sections. -/
def exDayNoProfile : DayData := ⟨some exStats100, none, none, none, none, none⟩

def exDayProfiled : DayData :=
  ⟨some ⟨some 1000, none, none, none, none⟩, none, none, none, none, some exProfile⟩

def exDayLateProfile : DayData :=
  ⟨some ⟨some 200, none, none, none, none⟩, none, none, none, none, some exProfile⟩

def exBundle1 : GarminExportData := ⟨[("2024-01-01", some exDayProfiled)]⟩

def exFs1 : FileSystem :=
  ⟨[("garmin_daily_20240101.json", exBundle1)], [], ["garmin_daily_20240101.json"]⟩

/-- A state whose store already holds the profile row from an earlier
run (stamped at time 0). -/
def exState0 : ImportState :=
  ⟨{ emptyStore with user_profile := [("garmin_user", ⟨"Ann", some "ann@example.com", 0⟩)] }, []⟩

def exAct1 : ActivitySummary :=
  ⟨101, some "Morning Run", none, none, none, some 600, none, none, none, none, none,
    none, none, none, none, none, none, none, none⟩

def exAct2 : ActivitySummary := { exAct1 with activityId := 102, activityName := some "Evening Ride" }

def exAct3 : ActivitySummary := { exAct1 with activityId := 103, activityName := some "Swim" }

def exActNoDur : ActivitySummary := { exAct1 with duration := none }

/-- An activity document whose second wrapper lacks its `summary` member. -/
def exActsFileBad : ActivityData := ⟨3, [⟨some exAct1⟩, ⟨none⟩, ⟨some exAct2⟩]⟩

def exActsFileGood : ActivityData := ⟨1, [⟨some exAct1⟩]⟩

def exBundlePlain : GarminExportData := ⟨[("2024-01-02", some exDayNoProfile)]⟩

def exFs2 : FileSystem :=
  ⟨[("garmin_daily_20240102.json", exBundlePlain)],
    [("activities_20240101.json", exActsFileBad)], ["garmin_daily_20240102.json"]⟩

def exFs3 : FileSystem := ⟨[], [], []⟩

def exFs5 : FileSystem := ⟨[], [("activities_20240101.json", exActsFileGood)], []⟩

def exBundle6 : GarminExportData :=
  ⟨[("2024-01-01", some exDayNoProfile), ("2024-01-02", some exDayLateProfile)]⟩

def exFs6 : FileSystem :=
  ⟨[("garmin_daily_20240101.json", exBundle6)], [], ["garmin_daily_20240101.json"]⟩

def exBundleA : GarminExportData :=
  ⟨[("2024-01-01", some exDayNoProfile), ("2024-01-02", some exDayNoProfile)]⟩

def exBundleB : GarminExportData :=
  ⟨[("2024-02-01", some exDayNoProfile), ("2024-02-02", some exDayNoProfile),
    ("2024-02-03", some exDayNoProfile)]⟩

def exFs7 : FileSystem :=
  ⟨[("garmin_daily_20240101.json", exBundleA), ("garmin_daily_20240201.json", exBundleB)], [],
    ["garmin_daily_20240101.json", "garmin_daily_20240201.json"]⟩

/-- A directory whose raw listing of activity files is not in ascending
order. -/
def exFs9 : FileSystem :=
  ⟨[], [], ["activities_20240103.json", "activities_20240101.json", "activities_20240102.json"]⟩

def exFs9d : FileSystem :=
  ⟨[], [],
    ["garmin_daily_20240102.json", "activities_20240103.json", "garmin_daily_20240101.json",
      "activities_20240101.json", "garmin_daily_20240103.json", "activities_20240102.json",
      "notes.txt"]⟩

/-! Generic lemmas about the upsert and the stats assignment. -/

/-- An upsert whose conflict update fixes the inserted row and is
idempotent on stored rows is idempotent on the whole relation. -/
theorem upsertAL_idem {κ α : Type} [DecidableEq κ] (k : κ) (ins : α) (upd : α → α)
    (h1 : upd ins = ins) (h2 : ∀ a, upd (upd a) = upd a) :
    ∀ s : List (κ × α), upsertAL k ins upd (upsertAL k ins upd s) = upsertAL k ins upd s
  | [] => by simp [upsertAL, h1]
  | p :: rest => by
    by_cases hk : p.1 = k
    · simp [upsertAL, hk, h2]
    · simp [upsertAL, hk, upsertAL_idem k ins upd h1 h2 rest]

/-- After `stats[k] = v`, looking up `k` yields `v`. -/
theorem lookupAL_setStat (k : String) (v : Nat) :
    ∀ st : List (String × Nat), lookupAL k (setStat k v st) = some v
  | [] => by simp [setStat, upsertAL, lookupAL]
  | p :: rest => by
    by_cases hk : p.1 = k
    · simp [setStat, upsertAL, lookupAL, hk]
    · simpa [setStat, upsertAL, lookupAL, hk] using lookupAL_setStat k v rest

/-- Idempotence of the `daily_health_metrics` upsert (full overwrite on
conflict). -/
theorem upsertDailyRow_idem (userId date : String) (row : DailyRow) (s : Store) :
    upsertDailyRow userId date row (upsertDailyRow userId date row s) =
      upsertDailyRow userId date row s := by
  simp [upsertDailyRow, upsertAL_idem (date, userId) row (fun _ => row) rfl (fun _ => rfl)]

/-- Idempotence of the `sleep_sessions` upsert. -/
theorem upsertSleepRow_idem (userId date : String) (row : SleepRow) (s : Store) :
    upsertSleepRow userId date row (upsertSleepRow userId date row s) =
      upsertSleepRow userId date row s := by
  simp [upsertSleepRow, upsertAL_idem (userId, date) row (fun _ => row) rfl (fun _ => rfl)]

/-- Idempotence of the `body_composition` upsert. -/
theorem upsertBodyRow_idem (userId date : String) (row : BodyRow) (s : Store) :
    upsertBodyRow userId date row (upsertBodyRow userId date row s) =
      upsertBodyRow userId date row s := by
  simp [upsertBodyRow, upsertAL_idem (date, userId) row (fun _ => row) rfl (fun _ => rfl)]

/-- Idempotence of the `activities` upsert: the partial conflict-update
fixes a row just inserted from the same record. -/
theorem upsertActivityRow_idem (userId : String) (a : ActivitySummary) (s : Store) :
    upsertActivityRow a (mkActivityRow userId a) (upsertActivityRow a (mkActivityRow userId a) s) =
      upsertActivityRow a (mkActivityRow userId a) s := by
  simp [upsertActivityRow,
    upsertAL_idem a.activityId (mkActivityRow userId a)
      (updateActivityRow (mkActivityRow userId a)) rfl (fun _ => rfl)]

/-- Idempotence of the `user_profile` upsert when both statements observe
the same `CURRENT_TIMESTAMP`. -/
theorem upsertProfileRow_idem (userId : String) (now : Nat) (u : UserSummary) (s : Store) :
    upsertProfileRow userId now u (upsertProfileRow userId now u s) =
      upsertProfileRow userId now u s := by
  simp [upsertProfileRow,
    upsertAL_idem userId (profileRowOf u now) (profileUpd u now) rfl (fun _ => rfl)]

/-! Lemmas showing the three daily-category importers never touch the
`user_profile` relation. -/

theorem dailyLoop_user_profile (userId : String) :
    ∀ (l : List (String × Option DayData)) (s : Store) (i e : Nat),
      (dailyLoop userId l s i e).1.user_profile = s.user_profile
  | [], _, _, _ => rfl
  | (date, d?) :: rest, s, i, e => by
    cases d? with
    | none => exact dailyLoop_user_profile userId rest s i (e + 1)
    | some day =>
      cases hst : day.stats with
      | none => simpa [dailyLoop, hst] using dailyLoop_user_profile userId rest s i e
      | some sec =>
        simpa [dailyLoop, hst, upsertDailyRow] using
          dailyLoop_user_profile userId rest
            (upsertDailyRow userId date (mkDailyRow day sec) s) (i + 1) e

theorem sleepLoop_user_profile (userId : String) :
    ∀ (l : List (String × Option DayData)) (s : Store) (i e : Nat),
      (sleepLoop userId l s i e).1.user_profile = s.user_profile
  | [], _, _, _ => rfl
  | (date, d?) :: rest, s, i, e => by
    cases d? with
    | none => exact sleepLoop_user_profile userId rest s i (e + 1)
    | some day =>
      cases hsl : day.sleep with
      | none => simpa [sleepLoop, hsl] using sleepLoop_user_profile userId rest s i e
      | some sl =>
        simpa [sleepLoop, hsl, upsertSleepRow] using
          sleepLoop_user_profile userId rest
            (upsertSleepRow userId date (mkSleepRow sl) s) (i + 1) e

theorem bodyLoop_user_profile (userId : String) :
    ∀ (l : List (String × Option DayData)) (s : Store) (i e : Nat),
      (bodyLoop userId l s i e).1.user_profile = s.user_profile
  | [], _, _, _ => rfl
  | (date, d?) :: rest, s, i, e => by
    cases d? with
    | none => exact bodyLoop_user_profile userId rest s i (e + 1)
    | some day =>
      cases hbc : day.body_composition with
      | none => simpa [bodyLoop, hbc] using bodyLoop_user_profile userId rest s i e
      | some bc =>
        simpa [bodyLoop, hbc, upsertBodyRow] using
          bodyLoop_user_profile userId rest
            (upsertBodyRow userId date (mkBodyRow bc) s) (i + 1) e

theorem importDaily_user_profile (userId : String) (d : GarminExportData) (st : ImportState) :
    (importDailyHealthMetrics userId d st).state.store.user_profile = st.store.user_profile := by
  simp [importDailyHealthMetrics, dailyLoop_user_profile]

theorem importSleep_user_profile (userId : String) (d : GarminExportData) (st : ImportState) :
    (importSleepData userId d st).state.store.user_profile = st.store.user_profile := by
  simp [importSleepData, sleepLoop_user_profile]

theorem importBody_user_profile (userId : String) (d : GarminExportData) (st : ImportState) :
    (importBodyComposition userId d st).state.store.user_profile = st.store.user_profile := by
  simp [importBodyComposition, bodyLoop_user_profile]

/-! Claim theorems. -/

/-- C1 (counterexample): importing the same bundle file twice does not
leave the `user_profile` relation in the same state as importing it once.
The bundle's first day record carries a profile sub-section, the profile
row already exists, and the two imports observe timestamps 1 and 2: the
conflict branch stamps `updated_at = CURRENT_TIMESTAMP`, so the stored
row differs between once and twice. -/
theorem c1_counterexample :
    (processExportFile "garmin_user" 2 false exFs1 "garmin_daily_20240101.json"
        (processExportFile "garmin_user" 1 false exFs1 "garmin_daily_20240101.json"
          exState0)).store.user_profile ≠
      (processExportFile "garmin_user" 1 false exFs1 "garmin_daily_20240101.json"
        exState0).store.user_profile := by decide

/-- C1 (amended): upserting the same source record twice yields the same
stored state as upserting it once for `daily_health_metrics`,
`sleep_sessions`, `body_composition` and `activities` unconditionally,
and for `user_profile` whenever both statements observe the same
`CURRENT_TIMESTAMP` (its conflict branch stamps `updated_at`, which is
what breaks exact idempotence across distinct timestamps). -/
theorem c1_amended (userId date : String) (now : Nat) (day : DayData) (sec : StatsSection)
    (sl : SleepSection) (bc : BodyCompSection) (a : ActivitySummary) (u : UserSummary)
    (s : Store) :
    upsertDailyRow userId date (mkDailyRow day sec)
        (upsertDailyRow userId date (mkDailyRow day sec) s) =
      upsertDailyRow userId date (mkDailyRow day sec) s ∧
    upsertSleepRow userId date (mkSleepRow sl)
        (upsertSleepRow userId date (mkSleepRow sl) s) =
      upsertSleepRow userId date (mkSleepRow sl) s ∧
    upsertBodyRow userId date (mkBodyRow bc)
        (upsertBodyRow userId date (mkBodyRow bc) s) =
      upsertBodyRow userId date (mkBodyRow bc) s ∧
    upsertActivityRow a (mkActivityRow userId a)
        (upsertActivityRow a (mkActivityRow userId a) s) =
      upsertActivityRow a (mkActivityRow userId a) s ∧
    upsertProfileRow userId now u (upsertProfileRow userId now u s) =
      upsertProfileRow userId now u s :=
  ⟨upsertDailyRow_idem userId date (mkDailyRow day sec) s,
    upsertSleepRow_idem userId date (mkSleepRow sl) s,
    upsertBodyRow_idem userId date (mkBodyRow bc) s,
    upsertActivityRow_idem userId a s,
    upsertProfileRow_idem userId now u s⟩

/-- C2 (code bug): per-record failure isolation fails for the activities
category. On the concrete file whose second wrapper lacks its `summary`
member, the loop aborts with the TypeError rethrown from the catch
handler after importing only the first record (the claim requires
`imported = 2`, `errors = 1` and both valid records stored); by contrast
a store-rejected record (id 102) is isolated as claimed; and at run level
the abort escalates to a failed run. -/
theorem c2_code_bug_eval :
    activitiesLoop "garmin_user" [] exActsFileBad.activities emptyStore 0 0 =
      .error ({ emptyStore with
        activities := [(101, mkActivityRow "garmin_user" exAct1)] }, 1, 0) ∧
    activitiesLoop "garmin_user" [102] [⟨some exAct1⟩, ⟨some exAct2⟩, ⟨some exAct3⟩]
        emptyStore 0 0 =
      .ok ({ emptyStore with
        activities := [(101, mkActivityRow "garmin_user" exAct1),
          (103, mkActivityRow "garmin_user" exAct3)] }, 2, 1) ∧
    exceptIsOk (run "garmin_user" 0 false [] exFs2
      ["--activities-file", "activities_20240101.json"]).result = false :=
  ⟨rfl, rfl, rfl⟩

/-- C3 (counterexample): a run whose explicitly named daily file does not
exist does not abort — it completes successfully and verification still
runs, because `processExportFile` only warns and returns on a missing
file. -/
theorem c3_counterexample :
    exceptIsOk (run "garmin_user" 0 false [] exFs3 ["--file", "missing.json"]).result = true ∧
    (run "garmin_user" 0 false [] exFs3 ["--file", "missing.json"]).verified = true :=
  ⟨rfl, rfl⟩

/-- C3 (amended): a missing explicitly named daily file is skipped with a
warning — `processExportFile` leaves the state unchanged — and the run
proceeds, can end successfully, and still releases the store connection. -/
theorem c3_amended (userId : String) (now : Nat) (pf : Bool) (fs : FileSystem)
    (name : String) (st : ImportState) (h : lookupAL name fs.files = none) :
    processExportFile userId now pf fs name st = st ∧
    exceptIsOk (run "garmin_user" 0 false [] exFs3 ["--file", "missing.json"]).result = true ∧
    (run "garmin_user" 0 false [] exFs3 ["--file", "missing.json"]).disconnected = true := by
  refine ⟨?_, rfl, rfl⟩
  simp [processExportFile, h]

/-- C3 (witness). -/
theorem c3_amended_witness :
    processExportFile "garmin_user" 0 false exFs3 "missing.json" emptyImportState =
      emptyImportState ∧
    exceptIsOk (run "garmin_user" 0 false [] exFs3 ["--file", "missing.json"]).result = true ∧
    (run "garmin_user" 0 false [] exFs3 ["--file", "missing.json"]).disconnected = true :=
  c3_amended "garmin_user" 0 false exFs3 "missing.json" emptyImportState rfl

/-- C4 (counterexample): with two explicit `--file` arguments and
`--only-latest` also set, the processed daily file list is `["b.json"]`,
not the supplied list — the only-latest truncation is applied to explicit
lists too. -/
theorem c4_counterexample :
    parseArgs ["--file", "a.json", "--file", "b.json", "--only-latest"] =
      ⟨["a.json", "b.json"], [], true, false⟩ ∧
    selectDailyFiles ⟨["a.json", "b.json"], [], true, false⟩ exFs3 = ["b.json"] ∧
    ["b.json"] ≠ ["a.json", "b.json"] := by decide

/-- C4 (amended): explicit daily file paths do skip directory scanning
entirely (the selection is independent of the filesystem), but the
only-latest mode still applies: with the flag set and more than one
explicit file, only the last supplied file is processed; otherwise the
processed list is exactly the supplied list. -/
theorem c4_amended (args : Args) (fs fs' : FileSystem) (h : args.dailyFiles ≠ []) :
    selectDailyFiles args fs = selectDailyFiles args fs' ∧
    selectDailyFiles args fs =
      (if args.onlyLatest ∧ args.dailyFiles.length > 1 then args.dailyFiles.getLast?.toList
       else args.dailyFiles) := by
  constructor <;> simp [selectDailyFiles, h]

/-- C4 (witness). -/
theorem c4_amended_witness :
    selectDailyFiles ⟨["a.json", "b.json"], [], true, false⟩ exFs3 =
      selectDailyFiles ⟨["a.json", "b.json"], [], true, false⟩ exFs1 ∧
    selectDailyFiles ⟨["a.json", "b.json"], [], true, false⟩ exFs3 =
      (if (Args.mk ["a.json", "b.json"] [] true false).onlyLatest ∧
          (["a.json", "b.json"] : List String).length > 1 then
        (["a.json", "b.json"] : List String).getLast?.toList
       else ["a.json", "b.json"]) :=
  c4_amended ⟨["a.json", "b.json"], [], true, false⟩ exFs3 exFs1 (by decide)

/-- C5 (counterexample): with an empty daily file list but a supplied,
existing and parseable activity file, the run short-circuits: it returns
the empty state (no activity imported) and verification never runs —
the claim's condition "both lists empty" is wrong. -/
theorem c5_counterexample :
    (parseArgs ["--activities-file", "activities_20240101.json"]).activityFiles =
      ["activities_20240101.json"] ∧
    (run "garmin_user" 0 false [] exFs5
      ["--activities-file", "activities_20240101.json"]).result = .ok emptyImportState ∧
    (run "garmin_user" 0 false [] exFs5
      ["--activities-file", "activities_20240101.json"]).verified = false :=
  ⟨rfl, rfl, rfl⟩

/-- C5 (amended): the run short-circuits to the "nothing to do" terminal
state (successful, empty state, no verification) exactly when the daily
file list alone is empty — activity files present or not; when the daily
list is nonempty the run either reaches verification or fails. -/
theorem c5_amended (userId : String) (now : Nat) (pf : Bool) (rejects : List Int)
    (fs : FileSystem) (argv : List String) :
    (selectDailyFiles (parseArgs argv) fs = [] →
      (run userId now pf rejects fs argv).result = .ok emptyImportState ∧
      (run userId now pf rejects fs argv).verified = false ∧
      (run userId now pf rejects fs argv).disconnected = true) ∧
    (selectDailyFiles (parseArgs argv) fs ≠ [] →
      (run userId now pf rejects fs argv).verified = true ∨
      exceptIsOk (run userId now pf rejects fs argv).result = false) := by
  constructor
  · intro h
    refine ⟨?_, ?_, ?_⟩ <;> simp [run, h]
  · intro h
    simp only [run]
    rw [if_neg h]
    split
    · exact Or.inr rfl
    · exact Or.inl rfl

/-- C5 (witness). -/
theorem c5_amended_witness :
    (run "garmin_user" 0 false [] exFs5
      ["--activities-file", "activities_20240101.json"]).result = .ok emptyImportState ∧
    (run "garmin_user" 0 false [] exFs5
      ["--activities-file", "activities_20240101.json"]).verified = false ∧
    (run "garmin_user" 0 false [] exFs5
      ["--activities-file", "activities_20240101.json"]).disconnected = true :=
  (c5_amended "garmin_user" 0 false [] exFs5
    ["--activities-file", "activities_20240101.json"]).1 (by decide)

/-- C6 (counterexample): a bundle whose first record lacks a profile
sub-section while the second record carries one imports no profile at
all — the later record's profile is not imported, contradicting the
claim. -/
theorem c6_counterexample :
    exDayLateProfile.user_summary = some exProfile ∧
    (processExportFile "garmin_user" 0 false exFs6 "garmin_daily_20240101.json"
      emptyImportState).store.user_profile = [] :=
  ⟨rfl, rfl⟩

/-- C6 (amended): the profile import of a daily bundle file depends only
on the file's first record: the `user_profile` relation after processing
the file equals the result of importing that first record's (possible)
profile sub-section, at most once per file; profile data in every later
record is ignored, even when the first record carries none. -/
theorem c6_amended (userId : String) (now : Nat) (pf : Bool) (fs : FileSystem)
    (name : String) (st : ImportState) (d : GarminExportData)
    (h : lookupAL name fs.files = some d) :
    (processExportFile userId now pf fs name st).store.user_profile =
      (importUserProfile userId now pf (firstDayProfile d) st).store.user_profile := by
  simp [processExportFile, h, importDaily_user_profile, importSleep_user_profile,
    importBody_user_profile]

/-- C6 (witness). -/
theorem c6_amended_witness :
    (processExportFile "garmin_user" 0 false exFs6 "garmin_daily_20240101.json"
        emptyImportState).store.user_profile =
      (importUserProfile "garmin_user" 0 false (firstDayProfile exBundle6)
        emptyImportState).store.user_profile :=
  c6_amended "garmin_user" 0 false exFs6 "garmin_daily_20240101.json" emptyImportState
    exBundle6 rfl

/-- C7 (counterexample): over two daily bundle files importing 2 and 3
daily records, the run's final `daily_health_metrics` stats entry is 3 —
the last file's count — not the sum 5 the claim requires. -/
theorem c7_counterexample :
    (importDailyHealthMetrics "garmin_user" exBundleA emptyImportState).imported = 2 ∧
    (importDailyHealthMetrics "garmin_user" exBundleB emptyImportState).imported = 3 ∧
    (okState (run "garmin_user" 0 false [] exFs7 []).result).bind
      (fun st => lookupAL "daily_health_metrics" st.stats) = some 3 ∧
    (okState (run "garmin_user" 0 false [] exFs7 []).result).bind
      (fun st => lookupAL "daily_health_metrics" st.stats) ≠ some 5 := by decide

/-- C7 (amended): each category importer assigns (overwrites) its
run-wide stats entry with that call's own imported count, regardless of
any previously stored value, so after a multi-file run the reported
count for daily metrics, sleep and body composition is the last
processed file's count, not the sum over files. -/
theorem c7_amended (userId : String) (d : GarminExportData) (st : ImportState) :
    lookupAL "daily_health_metrics" (importDailyHealthMetrics userId d st).state.stats =
      some (importDailyHealthMetrics userId d st).imported ∧
    lookupAL "sleep_sessions" (importSleepData userId d st).state.stats =
      some (importSleepData userId d st).imported ∧
    lookupAL "body_composition" (importBodyComposition userId d st).state.stats =
      some (importBodyComposition userId d st).imported := by
  refine ⟨?_, ?_, ?_⟩ <;>
    simp [importDailyHealthMetrics, importSleepData, importBodyComposition, lookupAL_setStat]

/-- C8 (counterexample): an activity record whose `duration` is absent is
stored with `duration_seconds = 0` — a number, not the relation's null —
because the source computes `Math.round(activity.duration || 0)`. -/
theorem c8_counterexample :
    exActNoDur.duration = none ∧
    (mkActivityRow "garmin_user" exActNoDur).duration_seconds = 0 :=
  ⟨rfl, rfl⟩

/-- C8 (amended): optional fields coalesce to null as claimed — a daily
record whose heart-rate sub-section is entirely absent yields null
resting/min/max heart-rate fields and imports without error — and the
boolean polyline flag defaults to false; but an absent activity duration
is a second exception: it normalizes to the number 0, not null. -/
theorem c8_amended (userId date : String) (day : DayData) (sec : StatsSection)
    (a : ActivitySummary) (s : Store)
    (hhr : day.heart_rate = none) (hst : day.stats = some sec)
    (hd : a.duration = none) (hp : a.hasPolyline = none) :
    (mkDailyRow day sec).resting_heart_rate = none ∧
    (mkDailyRow day sec).min_heart_rate = none ∧
    (mkDailyRow day sec).max_heart_rate = none ∧
    dailyLoop userId [(date, some day)] s 0 0 =
      (upsertDailyRow userId date (mkDailyRow day sec) s, 1, 0) ∧
    (mkActivityRow userId a).duration_seconds = 0 ∧
    (mkActivityRow userId a).has_polyline = false := by
  refine ⟨?_, ?_, ?_, ?_, ?_, ?_⟩ <;>
    simp [mkDailyRow, mkActivityRow, dailyLoop, hhr, hst, hd, hp, orNullNum, jsOrNum,
      durationSeconds]

/-- C8 (witness). -/
theorem c8_amended_witness :
    (mkDailyRow exDayNoProfile exStats100).resting_heart_rate = none ∧
    (mkDailyRow exDayNoProfile exStats100).min_heart_rate = none ∧
    (mkDailyRow exDayNoProfile exStats100).max_heart_rate = none ∧
    dailyLoop "garmin_user" [("2024-01-01", some exDayNoProfile)] emptyStore 0 0 =
      (upsertDailyRow "garmin_user" "2024-01-01" (mkDailyRow exDayNoProfile exStats100)
        emptyStore, 1, 0) ∧
    (mkActivityRow "garmin_user" exActNoDur).duration_seconds = 0 ∧
    (mkActivityRow "garmin_user" exActNoDur).has_polyline = false :=
  c8_amended "garmin_user" "2024-01-01" exDayNoProfile exStats100 exActNoDur emptyStore
    rfl rfl rfl rfl

/-- C9 (counterexample): in default mode the activity category processes
the matching files in raw directory-listing order, which here is not the
ascending sorted order the claim requires (the activities scan never
sorts). -/
theorem c9_counterexample :
    activityFileSelection exFs9 (activityFilesArg ⟨[], [], false, false⟩ exFs9) =
      ["activities_20240103.json", "activities_20240101.json", "activities_20240102.json"] ∧
    jsSort ["activities_20240103.json", "activities_20240101.json", "activities_20240102.json"] =
      ["activities_20240101.json", "activities_20240102.json", "activities_20240103.json"] ∧
    activityFileSelection exFs9 (activityFilesArg ⟨[], [], false, false⟩ exFs9) ≠
      jsSort (activityFileSelection exFs9 (activityFilesArg ⟨[], [], false, false⟩ exFs9)) := by
  decide

/-- C9 (amended): the daily category filters and sorts ascending, with
only-latest selecting exactly the lexicographically last match, and the
activity category sorts in only-latest mode as well; but in default mode
the activity selection is the filtered directory listing in raw listing
order — it is not sorted. -/
theorem c9_amended :
    selectDailyFiles ⟨[], [], false, false⟩ exFs9d =
      ["garmin_daily_20240101.json", "garmin_daily_20240102.json",
        "garmin_daily_20240103.json"] ∧
    selectDailyFiles ⟨[], [], true, false⟩ exFs9d = ["garmin_daily_20240103.json"] ∧
    activityFilesArg ⟨[], [], false, true⟩ exFs9d = some ["activities_20240103.json"] ∧
    (∀ fs : FileSystem,
      activityFileSelection fs (activityFilesArg ⟨[], [], false, false⟩ fs) =
        fs.dirListing.filter (fun n => strContains n "activities" && strEndsWith n ".json")) :=
  ⟨by decide, by decide, by decide, fun fs => rfl⟩

/-- C10 (confirmed): a failure of the `user_profile` statement is caught
inside `importUserProfile` and swallowed — the state is returned
unchanged (no error counter anywhere, no stats entry, store untouched) —
and a run whose profile import fails still completes successfully, with
the `user_profile` stats entry unset and the grand total counting only
the other categories (here 1 daily record). -/
theorem c10_profile_failure_swallowed :
    (∀ (userId : String) (now : Nat) (u? : Option UserSummary) (st : ImportState),
      importUserProfile userId now true u? st = st) ∧
    exceptIsOk (run "garmin_user" 7 true [] exFs1 []).result = true ∧
    (okState (run "garmin_user" 7 true [] exFs1 []).result).bind
      (fun st => lookupAL "user_profile" st.stats) = none ∧
    (okState (run "garmin_user" 7 true [] exFs1 []).result).map
      (fun st => st.store.user_profile) = some [] ∧
    (okState (run "garmin_user" 7 true [] exFs1 []).result).map
      (fun st => totalRecords st.stats) = some 1 := by
  refine ⟨fun userId now u? st => ?_, rfl, rfl, rfl, rfl⟩
  cases u? <;> rfl

end Garmin
